import Mathlib

/-!
Verification development for the Rosa conference-assistant backend
(`Rosa_custom_backend/backend`): the tool-call orchestration and
asynchronous card-decision pipeline.  Python dictionaries whose key set
matters are embedded as association lists; dictionaries with a fixed
field set are embedded as structures; floats are embedded as rationals;
fallible paths are embedded as explicit outcome parameters with the
`try/except` structure translated into `match`es on those outcomes.
-/

/-! ## Association-list model of Python dict operations -/

/-- `d.get(k)` on a Python dict embedded as an association list. -/
def lookupA {α : Type} (k : String) : List (String × α) → Option α
  | [] => none
  | (k', v) :: rest => if k' = k then some v else lookupA k rest

/-- `d[k] = v` on a Python dict embedded as an association list:
overwrite in place when the key exists, append otherwise. -/
def insertA {α : Type} (k : String) (v : α) : List (String × α) → List (String × α)
  | [] => [(k, v)]
  | (k', v') :: rest => if k' = k then (k, v) :: rest else (k', v') :: insertA k v rest

/-- Does the first character list start the second one? -/
def startsWithL : List Char → List Char → Bool
  | [], _ => true
  | _ :: _, [] => false
  | a :: as, b :: bs => a = b && startsWithL as bs

/-- Does the first character list occur contiguously inside the second? -/
def occursInL (needle : List Char) : List Char → Bool
  | [] => needle.isEmpty
  | c :: cs => startsWithL needle (c :: cs) || occursInL needle cs

/-- Python `needle in hay` on strings (substring test). -/
def pySubstr (needle hay : String) : Bool :=
  occursInL needle.toList hay.toList

/-- Python `s.lower()` (ASCII case folding, as in the source's inputs). -/
def pyLower (s : String) : String :=
  String.mk (s.data.map Char.toLower)

/-- Python truthiness of an optional string (`None` and `""` are falsy). -/
def pyTruthyStr : Option String → Bool
  | none => false
  | some s => s ≠ ""

/-! ## Weather adapter (`Agent1.CTBTOAgent.get_weather`) -/

/-- A value stored in the dict returned by `get_weather`
(strings, numbers, booleans, or the nested temperature record). -/
inductive Wv where
  | vstr (s : String)
  | vnum (q : ℚ)
  | vbool (b : Bool)
  | vtemp (celsius fahrenheit : ℚ)
  deriving DecidableEq

/-- Python truthiness of an optional `Wv` (for `weather_data.get("success")`). -/
def pyTruthyWv : Option Wv → Bool
  | none => false
  | some (Wv.vstr s) => s ≠ ""
  | some (Wv.vnum q) => q ≠ 0
  | some (Wv.vbool b) => b
  | some (Wv.vtemp _ _) => true

/-- The `location` object of a WeatherAPI response. -/
structure WApiLocation where
  name : String
  country : String
  localtime : String
  tz_id : String
  deriving DecidableEq

/-- The `current` object of a WeatherAPI response. -/
structure WApiCurrent where
  temp_c : ℚ
  temp_f : ℚ
  condition_text : String
  humidity : ℚ
  wind_kph : ℚ
  feelslike_c : ℚ
  vis_km : ℚ
  is_day : ℚ
  deriving DecidableEq

/-- A parsed WeatherAPI response body. -/
structure WApiResponse where
  location : WApiLocation
  current : WApiCurrent
  deriving DecidableEq

/-- Outcome of the HTTP call made inside `get_weather` (the Weather
Provider is opaque: the call either returns a response with a status, or
raises a `requests.RequestException`, or raises some other exception). -/
inductive ProviderOutcome where
  | ok (data : WApiResponse)
  | httpStatus (status : Nat)
  | requestException (msg : String)
  | otherException (msg : String)
  deriving DecidableEq

/-- `Agent1.CTBTOAgent.get_conference_weather_advice`: builds the advice
list from temperature and condition and returns its head (or a default). -/
def get_conference_weather_advice (temp_c : ℚ) (condition_lower : String) : String :=
  let advice :=
    (if temp_c < 0 then ["Very cold - heavy coat recommended for outdoor sessions"]
     else if temp_c < 10 then ["Cold - warm jacket needed for conference venue"]
     else if temp_c > 25 then ["Warm - light clothing suitable for indoor sessions"]
     else [])
    ++ (if pySubstr "rain" condition_lower then
          ["Rain expected - umbrella recommended for venue transfers"]
        else if pySubstr "snow" condition_lower then
          ["Snow conditions - allow extra travel time to venue"]
        else if pySubstr "clear" condition_lower ∨ pySubstr "sunny" condition_lower then
          ["Clear conditions - ideal for networking breaks outdoors"]
        else [])
  advice.headD "Pleasant conditions for conference activities"

/-- `Agent1.CTBTOAgent.get_weather`: translation of every branch of the
source, including the structured-failure returns of both `except`
clauses.  The requested location only feeds the provider URL, so it does
not appear in the result; the provider's behaviour is the
`ProviderOutcome` parameter. -/
def get_weather (weather_api_key : Option String) (outcome : ProviderOutcome) :
    List (String × Wv) :=
  match weather_api_key with
  | none =>
      [("error", Wv.vstr "Weather API key not configured"),
       ("message", Wv.vstr "Unable to fetch weather information at this time.")]
  | some _ =>
      match outcome with
      | ProviderOutcome.requestException m =>
          [("error", Wv.vstr "Network error"),
           ("message", Wv.vstr ("Failed to fetch weather information: " ++ m))]
      | ProviderOutcome.otherException m =>
          [("error", Wv.vstr "Unexpected error"),
           ("message", Wv.vstr ("Weather service error: " ++ m))]
      | ProviderOutcome.httpStatus s =>
          if s = 400 then
            [("error", Wv.vstr "Invalid location"),
             ("message", Wv.vstr "Please provide a valid city name, postal code, or coordinates."),
             ("suggestion", Wv.vstr "Try: Vienna, New York, or coordinates like 48.2082,16.3738")]
          else
            [("error", Wv.vstr "Weather service temporarily unavailable"),
             ("message", Wv.vstr "Unable to fetch weather information at this time.")]
      | ProviderOutcome.ok d =>
          let is_vienna := pySubstr "vienna" (pyLower d.location.name)
          [("location", Wv.vstr (d.location.name ++ ", " ++ d.location.country)),
           ("localTime", Wv.vstr d.location.localtime),
           ("timezone", Wv.vstr d.location.tz_id),
           ("temperature", Wv.vtemp d.current.temp_c d.current.temp_f),
           ("condition", Wv.vstr d.current.condition_text),
           ("humidity", Wv.vnum d.current.humidity),
           ("windKph", Wv.vnum d.current.wind_kph),
           ("feelsLikeC", Wv.vnum d.current.feelslike_c),
           ("visibility", Wv.vnum d.current.vis_km),
           ("isDay", Wv.vbool (d.current.is_day = 1)),
           ("isConferenceLocation", Wv.vbool is_vienna)]
          ++ (if is_vienna then
                [("conferenceWeatherAdvice",
                  Wv.vstr (get_conference_weather_advice d.current.temp_c
                    (pyLower d.current.condition_text)))]
              else [])

/-- A concrete successful WeatherAPI response for Vienna. -/
def viennaResponse : WApiResponse :=
  { location := { name := "Vienna", country := "Austria",
                  localtime := "2025-09-10 09:00", tz_id := "Europe/Vienna" },
    current := { temp_c := 18, temp_f := 64, condition_text := "Cloudy",
                 humidity := 60, wind_kph := 10, feelslike_c := 17,
                 vis_km := 10, is_day := 1 } }

/-! ## Card Decision Engine (`ui_intelligence_agent.py`) -/

/-- The fields of a retrieval match's `metadata` dict that the card
pipeline reads (`metadata.get("session_id")`, `metadata.get("speakers", [])`,
`metadata.get("theme", "")`). -/
structure Metadata where
  session_id : Option String
  speakers : List String
  theme : String
  deriving DecidableEq

/-- One serialized retrieval match, as built by the serialization loop in
`generate_cards_async` (id/title/content/metadata/relevance_score/
collection/search_type). -/
structure SearchResult where
  id : String
  title : String
  content : String
  metadata : Metadata
  relevance_score : ℚ
  collection : String
  search_type : String
  deriving DecidableEq

/-- The categorized retrieval results handed to the Card Decision Engine. -/
structure RagResults where
  sessions : List SearchResult
  speakers : List SearchResult
  topics : List SearchResult
  deriving DecidableEq

/-- `card_data` of a `CardDecision`: the session branch stores a
retrieval match verbatim; the speaker and topic branches build dicts
around retrieved session lists. -/
inductive CardData where
  | sessionData (s : SearchResult)
  | speakerData (name : String) (sessions : List SearchResult) (bio : String)
  | topicData (theme : String) (sessions : List SearchResult) (overview : String)
  deriving DecidableEq

/-- The `CardDecision` dataclass. -/
structure CardDecision where
  card_type : String
  card_data : CardData
  display_reason : String
  confidence : ℚ
  timing : String
  deriving DecidableEq

/-- One card proposed by the model inside its JSON decision
(`decision["cards"]`); every field is read with `card.get(...)`, so each
is optional here. -/
structure ProposedCard where
  type : Option String
  session_id : Option String
  id : Option String
  speaker_name : Option String
  topic_theme : Option String
  bio : Option String
  overview : Option String
  display_reason : Option String
  confidence : Option ℚ
  timing : Option String
  deriving DecidableEq

/-- Python `a or b` on optional strings (`None` and `""` are falsy). -/
def pyOrStr (a b : Option String) : Option String :=
  match a with
  | some s => if s = "" then b else some s
  | none => b

/-- The session branch of `_format_cards_for_display`: resolve
`card.get("session_id") or card.get("id")` against the sessions'
`metadata.session_id` by equality, taking the first match (`break`). -/
def format_session_card (card : ProposedCard) (sessions : List SearchResult) :
    Option CardDecision :=
  match sessions.find? (fun s => s.metadata.session_id = pyOrStr card.session_id card.id) with
  | some s =>
      some { card_type := "session", card_data := CardData.sessionData s,
             display_reason := card.display_reason.getD "",
             confidence := card.confidence.getD (8/10),
             timing := card.timing.getD "immediate" }
  | none => none

/-- The speaker branch of `_format_cards_for_display`: collect the
sessions whose `metadata.speakers` contain the proposed name; skip the
card when the name is empty or no session matches. -/
def format_speaker_card (card : ProposedCard) (sessions : List SearchResult) :
    Option CardDecision :=
  if card.speaker_name.getD "" = "" then none
  else if (sessions.filter
      (fun s => card.speaker_name.getD "" ∈ s.metadata.speakers)).isEmpty then none
  else
    some { card_type := "speaker",
           card_data := CardData.speakerData (card.speaker_name.getD "")
             (sessions.filter (fun s => card.speaker_name.getD "" ∈ s.metadata.speakers))
             (card.bio.getD ""),
           display_reason := card.display_reason.getD "",
           confidence := card.confidence.getD (8/10),
           timing := card.timing.getD "immediate" }

/-- The topic branch of `_format_cards_for_display`: collect the
sessions whose nonempty `metadata.theme` contains the proposed theme as
a case-insensitive substring; skip the card when the theme is empty or
no session matches. -/
def format_topic_card (card : ProposedCard) (sessions : List SearchResult) :
    Option CardDecision :=
  if card.topic_theme.getD "" = "" then none
  else if (sessions.filter (fun s => s.metadata.theme ≠ ""
      && pySubstr (pyLower (card.topic_theme.getD "")) (pyLower s.metadata.theme))).isEmpty
    then none
  else
    some { card_type := "topic",
           card_data := CardData.topicData (card.topic_theme.getD "")
             (sessions.filter (fun s => s.metadata.theme ≠ ""
               && pySubstr (pyLower (card.topic_theme.getD "")) (pyLower s.metadata.theme)))
             (card.overview.getD ""),
           display_reason := card.display_reason.getD "",
           confidence := card.confidence.getD (8/10),
           timing := card.timing.getD "immediate" }

/-- `UIIntelligenceAgent._format_cards_for_display`: each proposed card
yields at most one formatted card via its type's branch; cards of
unknown type contribute nothing. -/
def format_cards_for_display (card_decisions : List ProposedCard) (rag_results : RagResults) :
    List CardDecision :=
  card_decisions.filterMap (fun card =>
    match card.type with
    | some "session" => format_session_card card rag_results.sessions
    | some "speaker" => format_speaker_card card rag_results.sessions
    | some "topic" => format_topic_card card rag_results.sessions
    | _ => none)

/-! ## Conversation memory (`_update_conversation_memory`) -/

/-- One compact record of `memory["decision_history"]`. -/
structure DecisionRecord where
  timestamp : String
  confidence : ℚ
  reasoning : String
  cards_shown : Bool
  deriving DecidableEq

/-- `memory["patterns"]`: only these two keys are ever written. -/
structure Patterns where
  recent_show_rate : Option ℚ
  confidence_trend : Option ℚ
  deriving DecidableEq

/-- Per-session entry of `UIIntelligenceAgent.conversation_memory`
(the `preferences` sub-dict is never written or read, so it is omitted). -/
structure SessionMemory where
  decision_history : List DecisionRecord
  patterns : Patterns
  deriving DecidableEq

/-- `UIIntelligenceAgent.conversation_memory`. -/
def MemoryStore : Type := List (String × SessionMemory)

/-- The model's parsed JSON decision object; every field is read with
`decision.get(...)`, so each is optional here. -/
structure UiDecision where
  show_cards : Option Bool
  cards : Option (List ProposedCard)
  reasoning : Option String
  confidence : Option ℚ
  deriving DecidableEq

/-- The fresh per-session memory created on first write. -/
def emptySessionMemory : SessionMemory :=
  { decision_history := [], patterns := { recent_show_rate := none, confidence_trend := none } }

/-- The session's memory as the update step sees it. -/
def getMemory (session_id : String) (mem : MemoryStore) : SessionMemory :=
  (lookupA session_id mem).getD emptySessionMemory

/-- The last `n` elements of a list (Python `l[-n:]` for nonempty suffix). -/
def lastN {α : Type} (n : Nat) (l : List α) : List α :=
  l.drop (l.length - n)

/-- The compact record appended per decision (timestamp, confidence,
reasoning, whether cards were shown), each field read with a default. -/
def mkDecisionRecord (now : String) (decision : UiDecision) : DecisionRecord :=
  { timestamp := now, confidence := decision.confidence.getD 0,
    reasoning := decision.reasoning.getD "", cards_shown := decision.show_cards.getD false }

/-- The summary statistics block: show-rate and average confidence over
the last 5 records of the history (`sum(...)/5` in the source). -/
def derivedPatterns (hist : List DecisionRecord) : Patterns :=
  { recent_show_rate := some (((lastN 5 hist).countP (fun d => d.cards_shown) : ℚ) / 5),
    confidence_trend := some (((lastN 5 hist).map (fun d => d.confidence)).sum / 5) }

/-- `UIIntelligenceAgent._update_conversation_memory`: append one record
per decision; when the history has grown beyond 5 records, store the
show-rate and average confidence of the last 5 into `patterns`.
`datetime.now().isoformat()` is the `now` parameter. -/
def update_conversation_memory (now : String) (session_id : String) (decision : UiDecision)
    (mem : MemoryStore) : MemoryStore :=
  let m := getMemory session_id mem
  let hist := m.decision_history ++ [mkDecisionRecord now decision]
  let pats := if hist.length > 5 then derivedPatterns hist else m.patterns
  insertA session_id { decision_history := hist, patterns := pats } mem

/-! ## `analyze_conversation_for_cards` -/

/-- Outcome of the Card Decision Engine's single model round-trip: the
API call may raise, the returned content may fail `json.loads`, or it
parses into a decision object. -/
inductive UiModelOutcome where
  | callError (msg : String)
  | malformedJson (raw : String)
  | parsed (d : UiDecision)
  deriving DecidableEq

/-- Is the model round-trip outcome an error? -/
def uiModelErrored : UiModelOutcome → Bool
  | UiModelOutcome.callError _ => true
  | UiModelOutcome.malformedJson _ => true
  | UiModelOutcome.parsed _ => false

/-- `UIIntelligenceAgent.analyze_conversation_for_cards`: the whole model
round-trip sits in one `try`; any exception (API failure, malformed
JSON) yields the empty list with the memory untouched.  On a parsed
decision the memory is updated, then cards are formatted only when
`show_cards` is truthy. -/
def analyze_conversation_for_cards (outcome : UiModelOutcome) (rag_results : RagResults)
    (session_id : String) (now : String) (mem : MemoryStore) :
    MemoryStore × List CardDecision :=
  match outcome with
  | UiModelOutcome.callError _ => (mem, [])
  | UiModelOutcome.malformedJson _ => (mem, [])
  | UiModelOutcome.parsed d =>
      let mem1 := update_conversation_memory now session_id d mem
      if d.show_cards.getD false then
        (mem1, format_cards_for_display (d.cards.getD []) rag_results)
      else
        (mem1, [])

/-! ## Session State Store (`rosa_pattern1_api.RosaBackend`) -/

/-- A stored per-card-type payload.  The normal path
(`generate_cards_async` storing a `CardDecision`) uses the
`card_data`/`display_reason`/`confidence`/`timing` keys; the fallback
path uses `session`/`reason`/`confidence`/`timing`. -/
inductive StoredPayload where
  | card (card_data : CardData) (display_reason : String) (confidence : ℚ) (timing : String)
  | fallback (session : SearchResult) (reason : String) (confidence : ℚ) (timing : String)
  deriving DecidableEq

/-- The fields of the RAG tool result dict that the coordinator reads
(`rag_data.get("success")`, `.get("query")`, `.get("formatted_response", ...)`,
`.get("categorized_results", {})`, `.get("total_results", {})`). -/
structure RagData where
  success : Bool
  query : Option String
  formatted_response : Option String
  categorized_results : RagResults
  total_results : List (String × Nat)
  deriving DecidableEq

/-- One entry of `RosaBackend.session_rag_data`: retrieval data written
by `store_rag_data_for_session` plus the three per-card-type keys
written later by the background card task. -/
structure SessionRagEntry where
  query : Option String
  categorized_results : Option RagResults
  search_timestamp : Option ℚ
  total_results : List (String × Nat)
  latest_session : Option StoredPayload
  latest_speaker : Option StoredPayload
  latest_topic : Option StoredPayload
  deriving DecidableEq

/-- The empty dict first assigned to a fresh session key. -/
def emptyRagEntry : SessionRagEntry :=
  { query := none, categorized_results := none, search_timestamp := none,
    total_results := [], latest_session := none, latest_speaker := none,
    latest_topic := none }

/-- The arguments captured by one scheduled card-generation task
(the closure passed to `generate_cards_async`). -/
structure CardTask where
  user_message : String
  rag_data : RagData
  session_id : String
  deriving DecidableEq

/-- The mutable state of the `RosaBackend` instance that the turn
pipeline touches, plus the queue of scheduled background card tasks. -/
structure RosaState where
  session_weather_data : List (String × List (String × Wv))
  latest_weather_data : Option (List (String × Wv))
  session_rag_data : List (String × SessionRagEntry)
  pending_card_tasks : List CardTask

/-- The store as `RosaBackend.__init__` creates it. -/
def init_rosa_state : RosaState :=
  { session_weather_data := [], latest_weather_data := none,
    session_rag_data := [], pending_card_tasks := [] }

/-- `RosaBackend.store_rag_data_for_session`: update the session's
retrieval fields in place, leaving any stored card payloads alone
(`ts` is `time.time()`). -/
def store_rag_data_for_session (session_id : String) (rag_data : RagData) (ts : ℚ)
    (st : RosaState) : RosaState :=
  let e := (lookupA session_id st.session_rag_data).getD emptyRagEntry
  let e' := { e with query := rag_data.query,
                     categorized_results := some rag_data.categorized_results,
                     search_timestamp := some ts,
                     total_results := rag_data.total_results }
  { st with session_rag_data := insertA session_id e' st.session_rag_data }

/-- Which of the three per-card-type keys to write. -/
inductive CardSlot where
  | sessionSlot
  | speakerSlot
  | topicSlot
  deriving DecidableEq

/-- Write one per-card-type key of a session's entry (creating the entry
first when absent, as `generate_cards_async` does). -/
def setLatest (session_id : String) (slot : CardSlot) (p : StoredPayload)
    (st : RosaState) : RosaState :=
  let e := (lookupA session_id st.session_rag_data).getD emptyRagEntry
  let e' :=
    match slot with
    | CardSlot.sessionSlot => { e with latest_session := some p }
    | CardSlot.speakerSlot => { e with latest_speaker := some p }
    | CardSlot.topicSlot => { e with latest_topic := some p }
  { st with session_rag_data := insertA session_id e' st.session_rag_data }

/-- `generate_cards_async`: the background card task.  `setupFails`
models an exception reaching the outer `except` (agent construction or
serialization), which triggers the simple-fallback store; otherwise the
Card Decision Engine runs (with a fresh agent, hence empty conversation
memory) and each returned decision is stored under its card type's key.
All exceptions are caught inside; the task only transforms the store. -/
def generate_cards_async (rag_data : RagData) (session_id : String)
    (setupFails : Bool) (uiOutcome : UiModelOutcome) (now : String)
    (st : RosaState) : RosaState :=
  if setupFails then
    match rag_data.categorized_results.sessions with
    | first_session :: _ =>
        setLatest session_id CardSlot.sessionSlot
          (StoredPayload.fallback first_session
            "Most relevant session found (async fallback)" (7/10) "background") st
    | [] => st
  else
    let decisions :=
      (analyze_conversation_for_cards uiOutcome rag_data.categorized_results
        session_id now []).2
    decisions.foldl (fun acc d =>
      if d.card_type = "session" then
        setLatest session_id CardSlot.sessionSlot
          (StoredPayload.card d.card_data d.display_reason d.confidence d.timing) acc
      else if d.card_type = "speaker" then
        setLatest session_id CardSlot.speakerSlot
          (StoredPayload.card d.card_data d.display_reason d.confidence d.timing) acc
      else if d.card_type = "topic" then
        setLatest session_id CardSlot.topicSlot
          (StoredPayload.card d.card_data d.display_reason d.confidence d.timing) acc
      else acc) st

/-- Run one scheduled card task against the store. -/
def run_card_task (task : CardTask) (setupFails : Bool) (uiOutcome : UiModelOutcome)
    (now : String) (st : RosaState) : RosaState :=
  generate_cards_async task.rag_data task.session_id setupFails uiOutcome now st

/-! ## Turn Coordinator callbacks (`rosa_pattern1_api.chat_completions.generate`) -/

/-- `handle_weather_function`: run the weather adapter, and store the
result (per session and as the latest fallback) only when
`weather_data.get("success")` is truthy; always return the data. -/
def handle_weather_function (session_id : Option String) (weather_api_key : Option String)
    (outcome : ProviderOutcome) (args : List (String × String)) (st : RosaState) :
    RosaState × List (String × Wv) :=
  let _location := (lookupA "location" args).getD "Unknown"
  let weather_data := get_weather weather_api_key outcome
  if pyTruthyWv (lookupA "success" weather_data) then
    let st1 :=
      match session_id with
      | some s =>
          if s ≠ "" then
            { st with session_weather_data := insertA s weather_data st.session_weather_data }
          else st
      | none => st
    ({ st1 with latest_weather_data := some weather_data }, weather_data)
  else (st, weather_data)

/-- `handle_rag_function`: when the retrieval succeeded and a session id
was captured, store the raw retrieval data immediately and schedule the
card-generation coroutine (running event loop, fresh task, or background
thread — all three branches submit the work and return without awaiting
it; `scheduleOk = false` is the swallowed scheduling failure).  The
callback always returns `None`. -/
def handle_rag_function (user_message : String) (args : List (String × String))
    (rag_data : RagData) (captured_session_id : Option String) (scheduleOk : Bool)
    (ts : ℚ) (st : RosaState) : RosaState × Option Unit :=
  let _query := (lookupA "query" args).getD "Unknown"
  match captured_session_id with
  | some s =>
      if rag_data.success ∧ s ≠ "" then
        let st1 := store_rag_data_for_session s rag_data ts st
        let st2 :=
          if scheduleOk then
            { st1 with pending_card_tasks :=
                st1.pending_card_tasks ++ [{ user_message := user_message,
                                             rag_data := rag_data, session_id := s }] }
          else st1
        (st2, none)
      else (st, none)
  | none => (st, none)

/-! ## Polling endpoints -/

/-- `get_latest_session_data` (`GET /latest-session/:session_id`): return
the stored payload when both the session entry and its `latest_session`
key exist, `None` otherwise; the handler performs no writes, so the
store is returned unchanged. -/
def get_latest_session_data (session_id : String) (st : RosaState) :
    RosaState × Option StoredPayload :=
  (st, (lookupA session_id st.session_rag_data).bind (fun e => e.latest_session))

/-- `get_latest_speaker_data` (`GET /latest-speaker/:session_id`). -/
def get_latest_speaker_data (session_id : String) (st : RosaState) :
    RosaState × Option StoredPayload :=
  (st, (lookupA session_id st.session_rag_data).bind (fun e => e.latest_speaker))

/-- `get_latest_topic_data` (`GET /latest-topic/:session_id`). -/
def get_latest_topic_data (session_id : String) (st : RosaState) :
    RosaState × Option StoredPayload :=
  (st, (lookupA session_id st.session_rag_data).bind (fun e => e.latest_topic))

/-! ## Streaming response (`/chat/completions` `generate`) -/

/-- The OpenAI-compatible chunk envelope written by `generate`: the JSON
object `id` / `object` / `created` / `model` / `choices`, where
`choices` is the single element `index` / `delta` (whose optional
`content` is `delta_content`; the final chunk's empty delta is `none`) /
`finish_reason`. -/
structure Envelope where
  id : String
  object : String
  created : Nat
  model : String
  index : Nat
  delta_content : Option String
  finish_reason : Option String
  deriving DecidableEq

/-- One element of the SSE stream: an enveloped data chunk, the bare
error object of the outermost handler (reachable only when emitting or
logging itself fails, which the embedded pure semantics cannot do), or
the literal `[DONE]` sentinel. -/
inductive SseItem where
  | envelope (e : Envelope)
  | errorBlob (message errType : String)
  | done
  deriving DecidableEq

/-- A content chunk (`int(time.time())` is the `t` parameter). -/
def mkDataChunk (t : Nat) (content : String) : Envelope :=
  { id := "rosa-" ++ toString t, object := "chat.completion.chunk", created := t,
    model := "rosa-ctbto-agent", index := 0, delta_content := some content,
    finish_reason := none }

/-- The apologetic chunk emitted when the conversation stream raises. -/
def mkErrorChunk (t : Nat) : Envelope :=
  { id := "rosa-error-" ++ toString t, object := "chat.completion.chunk", created := t,
    model := "rosa-ctbto-agent", index := 0,
    delta_content :=
      some "I apologize, but I encountered an error processing your request. Please try again.",
    finish_reason := some "error" }

/-- The final chunk with the empty delta and `finish_reason = "stop"`. -/
def mkFinalChunk (t : Nat) : Envelope :=
  { id := "rosa-" ++ toString t, object := "chat.completion.chunk", created := t,
    model := "rosa-ctbto-agent", index := 0, delta_content := none,
    finish_reason := some "stop" }

/-- How one run of the conversation stream looks from `generate`'s inner
`try`: either it yields its chunks and finishes, or it raises after
yielding a prefix (a `TypeError` at the call itself is `raisedAfter []`). -/
inductive ConvStreamRun where
  | ok (chunks : List String)
  | raisedAfter (chunks : List String)
  deriving DecidableEq

/-- The body of `generate` after the conversation-stream call: wrap every
nonempty chunk in the envelope; if the stream raised, append the
apologetic error chunk; then always append the final chunk and the
`[DONE]` sentinel. -/
def generate_emit (run : ConvStreamRun) (t : Nat) : List SseItem :=
  match run with
  | ConvStreamRun.ok cs =>
      (cs.filter (fun c => c ≠ "")).map (fun c => SseItem.envelope (mkDataChunk t c))
      ++ [SseItem.envelope (mkFinalChunk t), SseItem.done]
  | ConvStreamRun.raisedAfter cs =>
      (cs.filter (fun c => c ≠ "")).map (fun c => SseItem.envelope (mkDataChunk t c))
      ++ [SseItem.envelope (mkErrorChunk t), SseItem.envelope (mkFinalChunk t), SseItem.done]

/-- Outcome of the one OpenAI streaming call inside
`process_conversation_stream`: a stream of deltas (each with optional
content) or a raised exception message. -/
def ModelStreamOutcome : Type := Except String (List (Option String))

/-- `Agent1.CTBTOAgent.process_conversation_stream` — the only definition
of this method in the repository, taking exactly one parameter
(`messages`) besides `self`: stream the truthy delta contents of one
model call, or, on any exception, yield the fixed four-part apology.
The second component counts model calls attempted (always one here). -/
def process_conversation_stream (modelOutcome : ModelStreamOutcome) :
    List String × Nat :=
  match modelOutcome with
  | Except.ok deltas =>
      (deltas.filterMap (fun d =>
        match d with
        | some s => if s ≠ "" then some s else none
        | none => none), 1)
  | Except.error e =>
      (["I apologize for the technical difficulty. ",
        "The CTBTO is dedicated to ensuring global peace through nuclear test ban verification, ",
        "and I want to emphasize that the CTBTO is going to save humanity through its crucial work. ",
        "(Technical note: " ++ e ++ ")"], 1)

/-- Number of parameters (besides `self`) of the only definition of
`process_conversation_stream` (`Agent1.py:100`). -/
def process_conversation_stream_param_count : Nat := 1

/-- Number of positional arguments `generate` passes to
`process_conversation_stream` (`rosa_pattern1_api.py:440`): user_message,
conversation_history, handle_weather_function, handle_rag_function,
session_id. -/
def chat_completions_call_arg_count : Nat := 5

/-- Python call semantics for `process_conversation_stream`: binding the
arguments raises `TypeError` before the generator body runs unless the
argument count matches the parameter count.  Returns the observed run
together with the number of model calls made. -/
def call_process_conversation_stream (argCount : Nat)
    (modelOutcome : ModelStreamOutcome) : ConvStreamRun × Nat :=
  if argCount = process_conversation_stream_param_count then
    let r := process_conversation_stream modelOutcome
    (ConvStreamRun.ok r.1, r.2)
  else
    (ConvStreamRun.raisedAfter [], 0)

/-- The `/chat/completions` streaming generator as the source wires it:
call `process_conversation_stream` with five positional arguments and
emit the resulting stream.  Returns the emitted SSE items and the number
of model calls made. -/
def chat_completions_generate (modelOutcome : ModelStreamOutcome) (t : Nat) :
    List SseItem × Nat :=
  let r := call_process_conversation_stream chat_completions_call_arg_count modelOutcome
  (generate_emit r.1 t, r.2)

/-! ## Interleaving of the text stream with the background card task

`generate` yields its chunks while a scheduled `generate_cards_async`
task runs concurrently.  One turn's execution is modelled as the emitted
chunk sequence with the background task applied to the shared store at
an arbitrary schedule point: `some k` runs the task just before the
`k`-th remaining emission (after the whole stream when `k` is larger),
`none` means no task is pending. -/

/-- Interleaved execution of the remaining chunk emissions with an
optionally pending background task over the shared store. -/
def run_interleaved (t : Nat) (task : RosaState → RosaState) :
    List String → Option Nat → RosaState → List SseItem × RosaState
  | [], sched, st =>
      ([SseItem.envelope (mkFinalChunk t), SseItem.done],
       match sched with
       | some _ => task st
       | none => st)
  | c :: cs, none, st =>
      let r := run_interleaved t task cs none st
      ((if c ≠ "" then [SseItem.envelope (mkDataChunk t c)] else []) ++ r.1, r.2)
  | c :: cs, some 0, st =>
      let r := run_interleaved t task cs none (task st)
      ((if c ≠ "" then [SseItem.envelope (mkDataChunk t c)] else []) ++ r.1, r.2)
  | c :: cs, some (k + 1), st =>
      let r := run_interleaved t task cs (some k) st
      ((if c ≠ "" then [SseItem.envelope (mkDataChunk t c)] else []) ++ r.1, r.2)

/-- The `latest_session` payload visible for a session. -/
def latestSessionOf (session_id : String) (st : RosaState) : Option StoredPayload :=
  (lookupA session_id st.session_rag_data).bind (fun e => e.latest_session)

/-- The `latest_speaker` payload visible for a session. -/
def latestSpeakerOf (session_id : String) (st : RosaState) : Option StoredPayload :=
  (lookupA session_id st.session_rag_data).bind (fun e => e.latest_speaker)

/-- The `latest_topic` payload visible for a session. -/
def latestTopicOf (session_id : String) (st : RosaState) : Option StoredPayload :=
  (lookupA session_id st.session_rag_data).bind (fun e => e.latest_topic)

/-! ## Spec-modelled two-phase turn (Conversation Engine protocol)

The complete callback-based conversation engine (the five-parameter
`process_conversation_stream` with its `_execute_tool_call` step) is not
among the source files; only its call site (`rosa_pattern1_api.py:440`)
and the specification describe it.  The protocol is therefore modelled
from the spec, in its own namespace. -/

namespace SpecTurn

/-- Modelled from the spec: a `ToolCall` produced by the language model
(`{ id, name, arguments }`). -/
structure ToolCall where
  id : String
  name : String
  arguments : List (String × String)
  deriving DecidableEq

/-- Modelled from the spec: one role-tagged message of the turn history,
including the assistant message carrying tool calls and the tool-result
message tagged with its originating `tool_call_id`. -/
inductive Msg where
  | system (content : String)
  | user (content : String)
  | assistant (content : String) (tool_calls : List ToolCall)
  | toolResult (tool_call_id : String) (content : String)
  deriving DecidableEq

/-- Is this message a tool-result entry? -/
def Msg.isToolResult : Msg → Bool
  | Msg.toolResult _ _ => true
  | _ => false

/-- The `tool_call_id` tag of a tool-result entry, if any. -/
def Msg.toolResultId : Msg → Option String
  | Msg.toolResult i _ => some i
  | _ => none

/-- Observable trace of one turn: how many model calls were made, the
streamed chunks, and the input history of the second (grounded) model
call when one occurred. -/
structure TurnTrace where
  model_calls : Nat
  chunks : List String
  second_call_history : Option (List Msg)
  deriving DecidableEq

/-- Modelled from the spec (§4.1, two-phase turn): the missing complete
`process_conversation_stream` submits the history plus the new user
message to the model (phase 1); when tool calls are returned, each is
dispatched synchronously to its adapter, every result is appended to the
history tagged with its originating `tool_call_id`, and exactly one more
model call is made on that full history (phase 3); with no tool calls,
the phase-1 text is streamed directly and no second call is made.
`phase1` and `phase2` are the model's two calls; `execTool` is the
adapter dispatch. -/
def run_turn (phase1 : List Msg → String × List ToolCall)
    (execTool : ToolCall → String)
    (phase2 : List Msg → List String)
    (history : List Msg) (user_message : String) : TurnTrace :=
  let msgs := history ++ [Msg.user user_message]
  let phase1_out := phase1 msgs
  let tool_calls := phase1_out.2
  if tool_calls.isEmpty then
    { model_calls := 1, chunks := [phase1_out.1], second_call_history := none }
  else
    let tool_msgs := tool_calls.map (fun tc => Msg.toolResult tc.id (execTool tc))
    let msgs2 := msgs ++ [Msg.assistant phase1_out.1 tool_calls] ++ tool_msgs
    { model_calls := 2, chunks := phase2 msgs2, second_call_history := some msgs2 }

end SpecTurn

/-! ## Concrete inputs used by witnesses and counterexamples -/

/-- A retrieval match for a quantum-sensing session. -/
def quantumSession : SearchResult :=
  { id := "doc-17", title := "Quantum Sensing Keynote",
    content := "Advances in quantum sensing for treaty verification.",
    metadata := { session_id := some "session-2025-09-10-0900",
                  speakers := ["Dr. Sarah Chen"], theme := "Quantum Sensing" },
    relevance_score := 1, collection := "sessions", search_type := "semantic" }

/-- Retrieval results holding exactly the quantum-sensing session. -/
def ragQuantum : RagResults :=
  { sessions := [quantumSession], speakers := [], topics := [] }

/-- A model-proposed topic card whose theme is a proper substring of the
stored session theme (and equals no identifier in the retrieval data). -/
def topicCardSens : ProposedCard :=
  { type := some "topic", session_id := none, id := none, speaker_name := none,
    topic_theme := some "Sensing", bio := none, overview := none,
    display_reason := some "related sessions", confidence := some (6/10),
    timing := none }

/-- A model-proposed session card naming the stored session's exact id. -/
def sessionCardExact : ProposedCard :=
  { type := some "session", session_id := some "session-2025-09-10-0900", id := none,
    speaker_name := none, topic_theme := none, bio := none, overview := none,
    display_reason := some "directly relevant", confidence := some 1,
    timing := some "immediate" }

/-- A parsed model decision that shows the exact-id session card. -/
def uiDecisionShow : UiDecision :=
  { show_cards := some true, cards := some [sessionCardExact],
    reasoning := some "specific session requested", confidence := some (9/10) }

/-- A RAG tool result carrying the quantum retrieval results. -/
def ragDataQuantum : RagData :=
  { success := true, query := some "quantum sensing",
    formatted_response := some "There is a keynote on quantum sensing.",
    categorized_results := ragQuantum, total_results := [("sessions", 1)] }

/-- The memory store after `n` successive card decisions for session
`s1`, each showing cards. -/
def updN : Nat → MemoryStore
  | 0 => []
  | n + 1 => update_conversation_memory "2025-09-10T09:00:00" "s1" uiDecisionShow (updN n)


/-! ## Helper lemmas -/

/-- Lookup after an insert: the inserted key is found, others unchanged. -/
theorem lookupA_insertA {α : Type} (k k' : String) (v : α) (l : List (String × α)) :
    lookupA k (insertA k' v l) = if k' = k then some v else lookupA k l := by
  induction l with
  | nil => by_cases h : k' = k <;> simp [insertA, lookupA, h]
  | cons p rest ih =>
      obtain ⟨pk, pv⟩ := p
      by_cases h1 : pk = k'
      · subst h1
        by_cases h2 : pk = k
        · subst h2
          simp [insertA, lookupA]
        · simp [insertA, lookupA, h2]
      · by_cases h2 : pk = k
        · subst h2
          have h3 : ¬ k' = pk := fun h => h1 h.symm
          simp [insertA, lookupA, h1, h3]
        · simp [insertA, lookupA, h1, h2, ih]

/-- `get_weather` never emits a `success` key, on any path. -/
theorem lookupA_success_get_weather (key : Option String) (outcome : ProviderOutcome) :
    lookupA "success" (get_weather key outcome) = none := by
  cases key with
  | none => simp [get_weather, lookupA]
  | some k =>
      cases outcome with
      | ok d =>
          simp only [get_weather]
          cases h : pySubstr "vienna" (pyLower d.location.name) <;>
            simp [h, lookupA]
      | httpStatus s =>
          simp only [get_weather]
          by_cases hs : s = 400 <;> simp [hs, lookupA]
      | requestException m => simp [get_weather, lookupA]
      | otherException m => simp [get_weather, lookupA]

/-- The emitted SSE items of an interleaved turn do not depend on the
schedule point of the background card task (nor on whether one is
pending at all): they are always exactly the enveloped chunk stream. -/
theorem run_interleaved_fst (t : Nat) (task : RosaState → RosaState) :
    ∀ (chunks : List String) (sched : Option Nat) (st : RosaState),
      (run_interleaved t task chunks sched st).1 = generate_emit (ConvStreamRun.ok chunks) t := by
  intro chunks
  induction chunks with
  | nil =>
      intro sched st
      cases sched <;> rfl
  | cons c cs ih =>
      intro sched st
      match sched with
      | none =>
          have h1 : (run_interleaved t task (c :: cs) none st).1
              = (if c ≠ "" then [SseItem.envelope (mkDataChunk t c)] else [])
                ++ (run_interleaved t task cs none st).1 := rfl
          rw [h1, ih none st]
          by_cases hc : c = "" <;> simp [generate_emit, hc]
      | some 0 =>
          have h1 : (run_interleaved t task (c :: cs) (some 0) st).1
              = (if c ≠ "" then [SseItem.envelope (mkDataChunk t c)] else [])
                ++ (run_interleaved t task cs none (task st)).1 := rfl
          rw [h1, ih none (task st)]
          by_cases hc : c = "" <;> simp [generate_emit, hc]
      | some (k + 1) =>
          have h1 : (run_interleaved t task (c :: cs) (some (k + 1)) st).1
              = (if c ≠ "" then [SseItem.envelope (mkDataChunk t c)] else [])
                ++ (run_interleaved t task cs (some k) st).1 := rfl
          rw [h1, ih (some k) st]
          by_cases hc : c = "" <;> simp [generate_emit, hc]

/-! ## Claim theorems -/

/-- Claim C5: the `/chat/completions` streaming generator calls
`process_conversation_stream` with five positional arguments while its
only definition accepts a single `messages` parameter, so for every
request the call raises `TypeError` before the generator body runs; the
handler converts this into the single apologetic error chunk (followed
by the final chunk and the `[DONE]` sentinel), and zero model calls —
hence also zero tool calls — are made on this path. -/
theorem C5_arity_mismatch_always_errors :
    ∀ (modelOutcome : ModelStreamOutcome) (t : Nat),
      chat_completions_call_arg_count ≠ process_conversation_stream_param_count
      ∧ chat_completions_generate modelOutcome t
          = ([SseItem.envelope (mkErrorChunk t), SseItem.envelope (mkFinalChunk t),
              SseItem.done], 0) := by
  intro mo t
  exact ⟨by decide, rfl⟩

/-- Claim C6 (code_bug evidence): at a successful provider response the
value returned by `get_weather` carries neither a `success` key nor an
`error` key — there is no explicit success/failure field on the success
path — while an error return signals failure only through its `error`
key.  (That `get_weather` never raises is inherent in the embedding:
every branch, including both `except` clauses, returns a dict.) -/
theorem C6_success_payload_has_no_flag :
    ("success" ∉ (get_weather (some "key") (ProviderOutcome.ok viennaResponse)).map Prod.fst
      ∧ "error" ∉ (get_weather (some "key") (ProviderOutcome.ok viennaResponse)).map Prod.fst)
    ∧ "success" ∉ (get_weather (some "key")
        (ProviderOutcome.requestException "timeout")).map Prod.fst
    ∧ "error" ∈ (get_weather (some "key")
        (ProviderOutcome.requestException "timeout")).map Prod.fst := by
  decide

/-- Claim C7 (code_bug evidence): `handle_weather_function` stores the
weather record only when `weather_data.get("success")` is truthy, but
`get_weather` never returns a `success` key, so for every input — in
particular every successful lookup — the callback leaves the Session
State Store (both the per-session entry and the latest-weather fallback)
completely unchanged. -/
theorem C7_weather_result_never_stored :
    ∀ (session_id : Option String) (key : Option String) (outcome : ProviderOutcome)
      (args : List (String × String)) (st : RosaState),
      (handle_weather_function session_id key outcome args st).1 = st := by
  intro sid key outcome args st
  simp [handle_weather_function, lookupA_success_get_weather, pyTruthyWv]

/-- Claim C9: every stream emitted by the `/chat/completions` generator
— with the conversation stream completing normally or raising after any
prefix — ends with the `[DONE]` sentinel as its final element, contains
the sentinel nowhere else, and consists otherwise exclusively of chunks
wrapped in the OpenAI-compatible envelope (`object` always
`chat.completion.chunk`, `model` always `rosa-ctbto-agent`, single
choice at index 0). -/
theorem C9_stream_enveloped_and_done_terminated :
    ∀ (run : ConvStreamRun) (t : Nat),
      (generate_emit run t).getLast? = some SseItem.done
      ∧ SseItem.done ∉ (generate_emit run t).dropLast
      ∧ ∀ x ∈ (generate_emit run t).dropLast, ∃ e, x = SseItem.envelope e
          ∧ e.object = "chat.completion.chunk" ∧ e.model = "rosa-ctbto-agent"
          ∧ e.index = 0 := by
  intro run t
  cases run with
  | ok cs =>
      have hshape : generate_emit (ConvStreamRun.ok cs) t
          = (cs.filter (fun c => c ≠ "")).map (fun c => SseItem.envelope (mkDataChunk t c))
            ++ [SseItem.envelope (mkFinalChunk t), SseItem.done] := rfl
      have hdrop : (generate_emit (ConvStreamRun.ok cs) t).dropLast
          = (cs.filter (fun c => c ≠ "")).map (fun c => SseItem.envelope (mkDataChunk t c))
            ++ [SseItem.envelope (mkFinalChunk t)] := by
        rw [hshape, List.dropLast_append_cons]
        rfl
      refine ⟨?_, ?_, ?_⟩
      · rw [hshape, List.getLast?_append_cons]
        rfl
      · rw [hdrop]
        intro h
        rcases List.mem_append.mp h with h1 | h1
        · rcases List.mem_map.mp h1 with ⟨c, _, hc⟩
          exact SseItem.noConfusion hc
        · simp at h1
      · intro x hx
        rw [hdrop] at hx
        rcases List.mem_append.mp hx with h1 | h1
        · rcases List.mem_map.mp h1 with ⟨c, _, hc⟩
          exact ⟨mkDataChunk t c, hc.symm, rfl, rfl, rfl⟩
        · have hx1 : x = SseItem.envelope (mkFinalChunk t) := by simpa using h1
          exact ⟨mkFinalChunk t, hx1, rfl, rfl, rfl⟩
  | raisedAfter cs =>
      have hshape : generate_emit (ConvStreamRun.raisedAfter cs) t
          = (cs.filter (fun c => c ≠ "")).map (fun c => SseItem.envelope (mkDataChunk t c))
            ++ [SseItem.envelope (mkErrorChunk t), SseItem.envelope (mkFinalChunk t),
                SseItem.done] := rfl
      have hdrop : (generate_emit (ConvStreamRun.raisedAfter cs) t).dropLast
          = (cs.filter (fun c => c ≠ "")).map (fun c => SseItem.envelope (mkDataChunk t c))
            ++ [SseItem.envelope (mkErrorChunk t), SseItem.envelope (mkFinalChunk t)] := by
        rw [hshape, List.dropLast_append_cons]
        rfl
      refine ⟨?_, ?_, ?_⟩
      · rw [hshape, List.getLast?_append_cons]
        rfl
      · rw [hdrop]
        intro h
        rcases List.mem_append.mp h with h1 | h1
        · rcases List.mem_map.mp h1 with ⟨c, _, hc⟩
          exact SseItem.noConfusion hc
        · simp at h1
      · intro x hx
        rw [hdrop] at hx
        rcases List.mem_append.mp hx with h1 | h1
        · rcases List.mem_map.mp h1 with ⟨c, _, hc⟩
          exact ⟨mkDataChunk t c, hc.symm, rfl, rfl, rfl⟩
        · have h2 : x = SseItem.envelope (mkErrorChunk t)
              ∨ x = SseItem.envelope (mkFinalChunk t) := by simpa using h1
          rcases h2 with h2 | h2
          · exact ⟨mkErrorChunk t, h2, rfl, rfl, rfl⟩
          · exact ⟨mkFinalChunk t, h2, rfl, rfl, rfl⟩

/-- Claim C10: the per-card-type read endpoints do not mutate the store,
so polling the same session and card type twice with no intervening
write returns the identical payload both times; on a store with no
decision yet (such as the initial store) the result is the explicit
absent sentinel (`None`), not an error. -/
theorem C10_polling_is_readonly_and_idempotent :
    ∀ (session_id : String) (st : RosaState),
      ((get_latest_session_data session_id st).1 = st
        ∧ (get_latest_session_data session_id
            ((get_latest_session_data session_id st).1)).2
          = (get_latest_session_data session_id st).2)
      ∧ ((get_latest_speaker_data session_id st).1 = st
        ∧ (get_latest_speaker_data session_id
            ((get_latest_speaker_data session_id st).1)).2
          = (get_latest_speaker_data session_id st).2)
      ∧ ((get_latest_topic_data session_id st).1 = st
        ∧ (get_latest_topic_data session_id
            ((get_latest_topic_data session_id st).1)).2
          = (get_latest_topic_data session_id st).2)
      ∧ (get_latest_session_data session_id init_rosa_state).2 = none
      ∧ (get_latest_speaker_data session_id init_rosa_state).2 = none
      ∧ (get_latest_topic_data session_id init_rosa_state).2 = none := by
  intro sid st
  exact ⟨⟨rfl, rfl⟩, ⟨rfl, rfl⟩, ⟨rfl, rfl⟩, rfl, rfl, rfl⟩

/-- Storing retrieval data for a session leaves every session's stored
card payloads untouched. -/
theorem latest_preserved_by_store (s s' : String) (rag_data : RagData) (ts : ℚ)
    (st : RosaState) :
    latestSessionOf s' (store_rag_data_for_session s rag_data ts st) = latestSessionOf s' st
    ∧ latestSpeakerOf s' (store_rag_data_for_session s rag_data ts st) = latestSpeakerOf s' st
    ∧ latestTopicOf s' (store_rag_data_for_session s rag_data ts st) = latestTopicOf s' st := by
  unfold latestSessionOf latestSpeakerOf latestTopicOf store_rag_data_for_session
  simp only [lookupA_insertA]
  by_cases h : s = s'
  · subst h
    cases hl : lookupA s st.session_rag_data <;> simp [hl, emptyRagEntry]
  · simp [h]

/-- Claim C2: the knowledge-tool callback returns `None` immediately; it
never executes the card task itself (every stored card payload is
unchanged when it returns), on success it merely appends the card work
as one pending background unit, and the emitted text stream of the turn
is identical whatever schedule point the background task gets — before
any chunk, between any two chunks, after the stream, or never. -/
theorem C2_card_scheduling_never_blocks_stream :
    ∀ (user_message : String) (args : List (String × String)) (rag_data : RagData)
      (s : String) (scheduleOk : Bool) (ts : ℚ) (st : RosaState),
      (handle_rag_function user_message args rag_data (some s) scheduleOk ts st).2 = none
      ∧ (∀ s',
          latestSessionOf s'
              (handle_rag_function user_message args rag_data (some s) scheduleOk ts st).1
            = latestSessionOf s' st
          ∧ latestSpeakerOf s'
              (handle_rag_function user_message args rag_data (some s) scheduleOk ts st).1
            = latestSpeakerOf s' st
          ∧ latestTopicOf s'
              (handle_rag_function user_message args rag_data (some s) scheduleOk ts st).1
            = latestTopicOf s' st)
      ∧ (rag_data.success = true → s ≠ "" → scheduleOk = true →
          (handle_rag_function user_message args rag_data (some s) scheduleOk ts st).1.pending_card_tasks
            = st.pending_card_tasks
              ++ [{ user_message := user_message, rag_data := rag_data, session_id := s }])
      ∧ (∀ (t : Nat) (task : RosaState → RosaState) (chunks : List String)
          (sched sched' : Option Nat) (st₀ : RosaState),
          (run_interleaved t task chunks sched st₀).1
            = (run_interleaved t task chunks sched' st₀).1) := by
  intro user_message args rag_data s scheduleOk ts st
  refine ⟨?_, ?_, ?_, ?_⟩
  · by_cases h : rag_data.success = true ∧ s ≠ "" <;>
      simp [handle_rag_function, h]
  · intro s'
    by_cases h : rag_data.success = true ∧ s ≠ ""
    · cases hsch : scheduleOk <;>
        simpa [handle_rag_function, h, hsch, latestSessionOf, latestSpeakerOf, latestTopicOf]
          using latest_preserved_by_store s s' rag_data ts st
    · simp [handle_rag_function, h]
  · intro h1 h2 h3
    simp [handle_rag_function, h1, h2, h3, store_rag_data_for_session]
  · intro t task chunks sched sched' st₀
    rw [run_interleaved_fst, run_interleaved_fst]

/-- Claim C4: whenever the Card Decision Engine's model round-trip
errors (API call failure, malformed JSON) the decide operation returns
the empty decision list with its memory untouched (it catches the
exception rather than raising); a parsed decision with the `show_cards`
field missing likewise yields no cards; and the turn's emitted text
stream with the failing background card task scheduled anywhere is
exactly the plain enveloped chunk stream. -/
theorem C4_card_failure_yields_empty_and_leaves_stream :
    ∀ (outcome : UiModelOutcome) (rag : RagResults) (sid : String) (now : String)
      (mem : MemoryStore),
      (uiModelErrored outcome = true →
        analyze_conversation_for_cards outcome rag sid now mem = (mem, []))
      ∧ (∀ d, outcome = UiModelOutcome.parsed d → d.show_cards = none →
          (analyze_conversation_for_cards outcome rag sid now mem).2 = [])
      ∧ (uiModelErrored outcome = true →
          ∀ (rag_data : RagData) (s now' : String) (setupFails : Bool) (t : Nat)
            (chunks : List String) (sched : Option Nat) (st : RosaState),
            (run_interleaved t (generate_cards_async rag_data s setupFails outcome now')
                chunks sched st).1
              = generate_emit (ConvStreamRun.ok chunks) t) := by
  intro outcome rag sid now mem
  refine ⟨?_, ?_, ?_⟩
  · intro herr
    cases outcome with
    | callError m => rfl
    | malformedJson r => rfl
    | parsed d => simp [uiModelErrored] at herr
  · intro d hd hsc
    subst hd
    simp [analyze_conversation_for_cards, hsc]
  · intro _ rag_data s now' setupFails t chunks sched st
    exact run_interleaved_fst t _ chunks sched st

/-- A message that is not a tool result carries no `tool_call_id` tag. -/
theorem toolResultId_eq_none_of_not_toolResult (m : SpecTurn.Msg)
    (h : m.isToolResult = false) : m.toolResultId = none := by
  cases m <;> simp_all [SpecTurn.Msg.isToolResult, SpecTurn.Msg.toolResultId]

/-- A history free of tool results contributes no `tool_call_id` tags. -/
theorem filterMap_toolResultId_eq_nil (l : List SpecTurn.Msg)
    (h : ∀ m ∈ l, m.isToolResult = false) :
    l.filterMap SpecTurn.Msg.toolResultId = [] := by
  induction l with
  | nil => rfl
  | cons m rest ih =>
      rw [List.filterMap_cons,
        toolResultId_eq_none_of_not_toolResult m (h m (List.mem_cons_self m rest))]
      exact ih (fun x hx => h x (List.mem_cons_of_mem m hx))

/-- The appended tool-result block carries exactly the tool calls' ids,
in order. -/
theorem filterMap_toolResultId_map (execTool : SpecTurn.ToolCall → String)
    (tcs : List SpecTurn.ToolCall) :
    (tcs.map (fun tc => SpecTurn.Msg.toolResult tc.id (execTool tc))).filterMap
        SpecTurn.Msg.toolResultId
      = tcs.map SpecTurn.ToolCall.id := by
  induction tcs with
  | nil => rfl
  | cons tc rest ih =>
      simp [SpecTurn.Msg.toolResultId, ih]

/-- Claim C1: for every turn whose first model call produces at least
one tool call, the (spec-modelled) two-phase protocol makes exactly two
model calls, and the input history of the second call contains exactly
one tool-result entry per produced `ToolCall`, tagged with its
originating `tool_call_id` — the id tags of the second history are
precisely the produced tool-call ids, in order, and each result entry is
present — so the follow-up is never made with a partial result set. -/
theorem C1_two_phase_turn_complete_results
    (phase1 : List SpecTurn.Msg → String × List SpecTurn.ToolCall)
    (execTool : SpecTurn.ToolCall → String)
    (phase2 : List SpecTurn.Msg → List String)
    (history : List SpecTurn.Msg) (user_message : String)
    (hclean : ∀ m ∈ history, m.isToolResult = false)
    (htools : (phase1 (history ++ [SpecTurn.Msg.user user_message])).2 ≠ []) :
    (SpecTurn.run_turn phase1 execTool phase2 history user_message).model_calls = 2
    ∧ ∃ h2,
        (SpecTurn.run_turn phase1 execTool phase2 history user_message).second_call_history
          = some h2
        ∧ h2.filterMap SpecTurn.Msg.toolResultId
            = ((phase1 (history ++ [SpecTurn.Msg.user user_message])).2).map
                SpecTurn.ToolCall.id
        ∧ ∀ tc ∈ (phase1 (history ++ [SpecTurn.Msg.user user_message])).2,
            SpecTurn.Msg.toolResult tc.id (execTool tc) ∈ h2 := by
  have hclean2 : ∀ m ∈ history ++ [SpecTurn.Msg.user user_message],
      m.isToolResult = false := by
    intro m hm
    rcases List.mem_append.mp hm with h | h
    · exact hclean m h
    · simp at h
      subst h
      rfl
  have hne : ((phase1 (history ++ [SpecTurn.Msg.user user_message])).2).isEmpty = false := by
    cases hl : (phase1 (history ++ [SpecTurn.Msg.user user_message])).2 with
    | nil => exact absurd hl htools
    | cons a l => rfl
  constructor
  · simp [SpecTurn.run_turn, hne]
  · refine ⟨(history ++ [SpecTurn.Msg.user user_message])
        ++ [SpecTurn.Msg.assistant
              (phase1 (history ++ [SpecTurn.Msg.user user_message])).1
              (phase1 (history ++ [SpecTurn.Msg.user user_message])).2]
        ++ ((phase1 (history ++ [SpecTurn.Msg.user user_message])).2).map
              (fun tc => SpecTurn.Msg.toolResult tc.id (execTool tc)), ?_, ?_, ?_⟩
    · simp [SpecTurn.run_turn, hne]
    · rw [List.filterMap_append, List.filterMap_append,
        filterMap_toolResultId_eq_nil _ hclean2,
        filterMap_toolResultId_map]
      simp [SpecTurn.Msg.toolResultId]
    · intro tc htc
      refine List.mem_append.mpr (Or.inr ?_)
      exact List.mem_map.mpr ⟨tc, htc, rfl⟩

/-- Claim C3 counterexample: the engine returns a topic card whose
identifying theme ("Sensing") is resolved only as a case-insensitive
substring of a stored session theme — the identifier equals no session
theme, no metadata session id and no result id in the retrieval data, so
the returned decision is not resolved by exact identifier match. -/
theorem C3_counterexample_topic_substring :
    ∃ d ∈ format_cards_for_display [topicCardSens] ragQuantum,
      d.card_type = "topic"
      ∧ d.card_data = CardData.topicData "Sensing" [quantumSession] ""
      ∧ ∀ s ∈ ragQuantum.sessions,
          s.metadata.theme ≠ "Sensing" ∧ s.metadata.session_id ≠ some "Sensing"
          ∧ s.id ≠ "Sensing" := by
  decide


/-- Claim C3 (amended): every returned `CardDecision` is resolved
against the retrieval results — session cards by exact `session_id`
match on metadata, carrying a retrieval match verbatim as `card_data`;
speaker cards by exact name membership in retrieved sessions' speaker
lists; topic cards only by case-insensitive substring match on session
themes; and every proposed card that cannot be so resolved is dropped
(nothing in the output is fabricated outside these forms). -/
theorem C3_cards_resolved_against_retrieval (cards : List ProposedCard) (rag : RagResults) :
    ∀ d ∈ format_cards_for_display cards rag,
      (d.card_type = "session" ∨ d.card_type = "speaker" ∨ d.card_type = "topic")
      ∧ (d.card_type = "session" → ∃ s ∈ rag.sessions, d.card_data = CardData.sessionData s)
      ∧ (d.card_type = "speaker" → ∃ name ss bio,
            d.card_data = CardData.speakerData name ss bio ∧ ss ≠ []
            ∧ ∀ s ∈ ss, s ∈ rag.sessions ∧ name ∈ s.metadata.speakers)
      ∧ (d.card_type = "topic" → ∃ th ss ov,
            d.card_data = CardData.topicData th ss ov ∧ ss ≠ []
            ∧ ∀ s ∈ ss, s ∈ rag.sessions
                ∧ pySubstr (pyLower th) (pyLower s.metadata.theme) = true) := by
  intro d hd
  rcases List.mem_filterMap.mp hd with ⟨card, _hcmem, hf⟩
  revert hf
  unfold format_session_card format_speaker_card format_topic_card
  split
  · -- session branch
    intro hf
    split at hf
    next s heq =>
      injection hf with h
      subst h
      exact ⟨Or.inl rfl, fun _ => ⟨s, List.mem_of_find?_eq_some heq, rfl⟩,
        fun h => absurd (show ("session" : String) = "speaker" from h) (by decide),
        fun h => absurd (show ("session" : String) = "topic" from h) (by decide)⟩
    next => exact Option.noConfusion hf
  · -- speaker branch
    intro hf
    split at hf
    next => exact Option.noConfusion hf
    next hname =>
      split at hf
      next => exact Option.noConfusion hf
      next hemp =>
        injection hf with h
        subst h
        refine ⟨Or.inr (Or.inl rfl),
          fun h => absurd (show ("speaker" : String) = "session" from h) (by decide), ?_,
          fun h => absurd (show ("speaker" : String) = "topic" from h) (by decide)⟩
        intro _
        refine ⟨_, _, _, rfl, ?_, ?_⟩
        · intro hnil
          rw [hnil] at hemp
          exact hemp rfl
        · intro s hs
          have h1 := List.mem_filter.mp hs
          exact ⟨h1.1, of_decide_eq_true h1.2⟩
  · -- topic branch
    intro hf
    split at hf
    next => exact Option.noConfusion hf
    next hth =>
      split at hf
      next => exact Option.noConfusion hf
      next hemp =>
        injection hf with h
        subst h
        refine ⟨Or.inr (Or.inr rfl),
          fun h => absurd (show ("topic" : String) = "session" from h) (by decide),
          fun h => absurd (show ("topic" : String) = "speaker" from h) (by decide), ?_⟩
        intro _
        refine ⟨_, _, _, rfl, ?_, ?_⟩
        · intro hnil
          rw [hnil] at hemp
          exact hemp rfl
        · intro s hs
          have h1 := List.mem_filter.mp hs
          have h2 : decide (s.metadata.theme ≠ "") = true
              ∧ pySubstr (pyLower (card.topic_theme.getD ""))
                  (pyLower s.metadata.theme) = true := by
            simpa using h1.2
          exact ⟨h1.1, h2.2⟩
  · -- no matching card type: nothing is produced
    intro hf
    exact Option.noConfusion hf

/-- Claim C8 counterexample: after exactly five decision records the
pattern memory holds no derived statistics at all (the source derives
them only once the history exceeds five records), and statistics are
then derived after the sixth and again after the seventh decision — a
per-decision recomputation beyond five records, not an every-5-records
cadence. -/
theorem C8_counterexample_no_stats_at_five :
    (getMemory "s1" (updN 5)).decision_history.length = 5
    ∧ (getMemory "s1" (updN 5)).patterns.recent_show_rate = none
    ∧ (getMemory "s1" (updN 5)).patterns.confidence_trend = none
    ∧ (getMemory "s1" (updN 6)).patterns.recent_show_rate.isSome = true
    ∧ (getMemory "s1" (updN 6)).patterns.confidence_trend.isSome = true
    ∧ (getMemory "s1" (updN 7)).patterns.recent_show_rate.isSome = true := by
  decide

/-- Claim C8 (amended): each decision appends exactly one compact record
(timestamp, confidence, reasoning, whether cards were shown) to the
session's rolling history; once the history exceeds five records — that
is, after every decision from the sixth on, not every fifth decision —
the show-rate and average confidence over the last five records are
derived into the session's pattern memory, and before that point the
pattern memory is left untouched. -/
theorem C8_one_record_stats_beyond_five (now sid : String) (decision : UiDecision)
    (mem : MemoryStore) :
    (getMemory sid (update_conversation_memory now sid decision mem)).decision_history
      = (getMemory sid mem).decision_history ++ [mkDecisionRecord now decision]
    ∧ ((getMemory sid mem).decision_history.length + 1 > 5 →
        (getMemory sid (update_conversation_memory now sid decision mem)).patterns
          = derivedPatterns
              ((getMemory sid (update_conversation_memory now sid decision mem)).decision_history))
    ∧ ((getMemory sid mem).decision_history.length + 1 ≤ 5 →
        (getMemory sid (update_conversation_memory now sid decision mem)).patterns
          = (getMemory sid mem).patterns) := by
  have hent : getMemory sid (update_conversation_memory now sid decision mem)
      = { decision_history :=
            (getMemory sid mem).decision_history ++ [mkDecisionRecord now decision],
          patterns :=
            if ((getMemory sid mem).decision_history
                ++ [mkDecisionRecord now decision]).length > 5 then
              derivedPatterns
                ((getMemory sid mem).decision_history ++ [mkDecisionRecord now decision])
            else (getMemory sid mem).patterns } := by
    conv_lhs =>
      rw [show update_conversation_memory now sid decision mem
            = insertA sid
                { decision_history :=
                    (getMemory sid mem).decision_history ++ [mkDecisionRecord now decision],
                  patterns :=
                    if ((getMemory sid mem).decision_history
                        ++ [mkDecisionRecord now decision]).length > 5 then
                      derivedPatterns ((getMemory sid mem).decision_history
                        ++ [mkDecisionRecord now decision])
                    else (getMemory sid mem).patterns } mem from rfl]
    rw [getMemory, lookupA_insertA]
    simp
  have hlen : ((getMemory sid mem).decision_history
      ++ [mkDecisionRecord now decision]).length
      = (getMemory sid mem).decision_history.length + 1 := by
    simp
  refine ⟨?_, ?_, ?_⟩
  · rw [hent]
  · intro h
    rw [hent]
    simp only [hlen]
    rw [if_pos h]
  · intro h
    rw [hent]
    simp only [hlen]
    rw [if_neg (by omega)]

/-- Witness for C1 at a concrete turn: a phase-1 response with two tool
calls yields exactly two model calls. -/
theorem C1_two_phase_turn_complete_results_witness :
    (SpecTurn.run_turn
        (fun _ => ("", [{ id := "call_1", name := "get_weather",
                          arguments := [("location", "Vienna")] },
                        { id := "call_2", name := "search_conference_knowledge",
                          arguments := [("query", "quantum sensing")] }]))
        (fun _ => "tool result") (fun _ => ["grounded answer"])
        [SpecTurn.Msg.system "persona"] "what is on today?").model_calls = 2 := by
  have h := C1_two_phase_turn_complete_results
      (fun _ => ("", [{ id := "call_1", name := "get_weather",
                        arguments := [("location", "Vienna")] },
                      { id := "call_2", name := "search_conference_knowledge",
                        arguments := [("query", "quantum sensing")] }]))
      (fun _ => "tool result") (fun _ => ["grounded answer"])
      [SpecTurn.Msg.system "persona"] "what is on today?"
      (by decide) (by decide)
  exact h.1

/-- Witness for C2 at a concrete callback invocation: the card work is
appended to the pending background queue. -/
theorem C2_card_scheduling_never_blocks_stream_witness :
    (handle_rag_function "quantum sensing?" [] ragDataQuantum (some "sess1") true 0
        init_rosa_state).1.pending_card_tasks
      = init_rosa_state.pending_card_tasks
        ++ [{ user_message := "quantum sensing?", rag_data := ragDataQuantum,
              session_id := "sess1" }] := by
  exact (C2_card_scheduling_never_blocks_stream "quantum sensing?" [] ragDataQuantum
      "sess1" true 0 init_rosa_state).2.2.1 rfl (by decide) rfl

/-- Witness for C3 at a concrete output card: the returned session
decision's `card_data` is one of the retrieval results. -/
theorem C3_cards_resolved_against_retrieval_witness :
    ∃ s ∈ ragQuantum.sessions,
      ({ card_type := "session", card_data := CardData.sessionData quantumSession,
         display_reason := "directly relevant", confidence := 1,
         timing := "immediate" } : CardDecision).card_data = CardData.sessionData s := by
  have h := C3_cards_resolved_against_retrieval [sessionCardExact] ragQuantum
      { card_type := "session", card_data := CardData.sessionData quantumSession,
        display_reason := "directly relevant", confidence := 1, timing := "immediate" }
      (by decide)
  exact h.2.1 rfl

/-- Witness for C4 at a concrete failing model call: the decide
operation returns the empty list with its memory untouched. -/
theorem C4_card_failure_yields_empty_and_leaves_stream_witness :
    analyze_conversation_for_cards (UiModelOutcome.callError "boom") ragQuantum "sess1"
        "2025-09-10T09:00:00" [] = ([], []) := by
  exact (C4_card_failure_yields_empty_and_leaves_stream (UiModelOutcome.callError "boom")
      ragQuantum "sess1" "2025-09-10T09:00:00" []).1 rfl

/-- Witness for C8 at the sixth concrete decision: the derived
statistics over the last five records are stored. -/
theorem C8_one_record_stats_beyond_five_witness :
    (getMemory "s1" (updN 6)).patterns
      = derivedPatterns ((getMemory "s1" (updN 6)).decision_history) := by
  have h := C8_one_record_stats_beyond_five "2025-09-10T09:00:00" "s1" uiDecisionShow (updN 5)
  exact h.2.1 (by decide)

/-- Witness for C9 at a concrete erroring stream: the emitted stream
ends with `[DONE]` and its error chunk is enveloped. -/
theorem C9_stream_enveloped_and_done_terminated_witness :
    (generate_emit (ConvStreamRun.raisedAfter ["partial"]) 3).getLast? = some SseItem.done
    ∧ ∃ e, SseItem.envelope (mkErrorChunk 3) = SseItem.envelope e
        ∧ e.object = "chat.completion.chunk" ∧ e.model = "rosa-ctbto-agent"
        ∧ e.index = 0 := by
  have h := C9_stream_enveloped_and_done_terminated (ConvStreamRun.raisedAfter ["partial"]) 3
  exact ⟨h.1, h.2.2 (SseItem.envelope (mkErrorChunk 3)) (by decide)⟩
